import Mathlib

/-!
Shallow embedding of the audio_service repository (transcription fallback
orchestrator in `functions/transcription.py` and the voice metadata store in
`routes/voice_routes.py` / `functions/eleven_api.py`), together with theorems
settling the specification claims.

External collaborators (the Whisper model runtime and the ElevenLabs HTTP API)
are passed in as function parameters returning `Except String _`, where the
`String` is the Python exception message (`str(e)`); `HTTPException` details are
likewise modelled as the detail string (all transcription errors carry status
500).  Module-level mutable state (`whisper_model`) is threaded explicitly as a
`WhisperState` value; since a raised Python exception does not roll back a
global, every operation returns its post-state alongside the `Except` result.
-/

namespace AudioService

/-- One entry of `result["segments"]` as returned by `model.transcribe`.
Timestamps are JSON numbers copied verbatim (no arithmetic), modelled as `Rat`. -/
structure Segment where
  text : String
  start : Rat
  «end» : Rat
  deriving DecidableEq, Repr

/-- The shape of the local engine's raw output, per the collaborator interface
`engine.transcribe(file_path) → {text, language, segments}`.  It carries no
`confidence` key, so `result.get("confidence", 1.0)` in the source always
yields the default.  `language` is optional: `result.get("language", "en")`. -/
structure WhisperRaw where
  text : String
  language : Option String
  segments : List Segment
  deriving DecidableEq, Repr

/-- One synthesized word entry of the normalized transcription result. -/
structure Word where
  text : String
  type : String
  start : Rat
  «end» : Rat
  speaker_id : String
  deriving DecidableEq, Repr

/-- The normalized transcription dictionary built by `transcribe_with_whisper`. -/
structure TranscriptionResult where
  text : String
  language_code : String
  language_probability : Rat
  words : List Word
  segments : List Segment
  confidence : Rat
  engine : String
  model : String
  deriving DecidableEq, Repr

/-- The JSON dictionary returned by the ElevenLabs speech-to-text endpoint.
`payload` stands for all keys other than `engine` and `model`; the orchestrator
overwrites `engine` and `model` by dict assignment. -/
structure RemoteJson where
  payload : String
  engine : String
  model : String
  deriving DecidableEq, Repr

/-- The handle returned by `whisper.load_model(model_name, device)`, identified
by the name it was loaded with. -/
structure LoadedModel where
  loadedName : String
  deriving DecidableEq, Repr

/-- The module-level global `whisper_model` (initially `None`). -/
structure WhisperState where
  whisper_model : Option LoadedModel
  deriving DecidableEq, Repr

/-- A `Union[bytes, List[bytes]]`-style argument pair: either both
`audio_contents` and `filenames` are scalars, or both are lists (the source
zips them; the list case carries the zipped `(content, filename)` pairs). -/
inductive PyIn where
  | single (content filename : String)
  | list (items : List (String × String))
  deriving DecidableEq, Repr

/-- A `Union[Dict, List[Dict]]`-style return value. -/
inductive PyOut (α : Type) where
  | single (r : α)
  | list (rs : List α)
  deriving DecidableEq, Repr

/-- Per-item result of `transcribe_with_fallback`: a normalized local result or
the (tagged) remote dictionary. -/
inductive FallbackResult where
  | loc (r : TranscriptionResult)
  | remote (r : RemoteJson)
  deriving DecidableEq, Repr

/-- The value of the `engine` key of a fallback result. -/
def FallbackResult.engine : FallbackResult → String
  | .loc r => r.engine
  | .remote r => r.engine

/-- `get_whisper_model` (transcription.py:27-37): return the cached global if
present; otherwise call `whisper.load_model` (the `load` collaborator) and
cache the handle.  A load failure leaves the global unset and re-raises. -/
def get_whisper_model (load : String → Except String LoadedModel)
    (st : WhisperState) (model_name : String) :
    Except String LoadedModel × WhisperState :=
  match st.whisper_model with
  | some m => (.ok m, st)
  | none =>
    match load model_name with
    | .error e => (.error e, st)
    | .ok m => (.ok m, { whisper_model := some m })

/-- Normalization of one raw Whisper result (transcription.py:77-100): detected
language with default "en", fixed language probability 1.0, one word per
segment copying the segment's text/start/end with `type = "word"` and
`speaker_id = "0"`, confidence `result.get("confidence", 1.0)` (always the
default 1.0 since the raw output shape has no such key), engine "whisper",
and the requested model name. -/
def normalizeWhisper (raw : WhisperRaw) (model_name : String) : TranscriptionResult :=
  { text := raw.text
    language_code := raw.language.getD "en"
    language_probability := 1
    words := raw.segments.map fun s =>
      { text := s.text, type := "word", start := s.start, «end» := s.«end», speaker_id := "0" }
    segments := raw.segments
    confidence := 1
    engine := "whisper"
    model := model_name }

/-- The per-item loop of `transcribe_with_whisper` (transcription.py:63-106):
the `tfn` collaborator is `model.transcribe` applied to the temp file holding
`content` (named after `filename`); any exception in the loop body is wrapped
into the 500 detail and aborts the whole loop. -/
def whisperLoop (tfn : LoadedModel → String → String → Except String WhisperRaw)
    (model : LoadedModel) (model_name : String) :
    List (String × String) → Except String (List TranscriptionResult)
  | [] => .ok []
  | (content, filename) :: rest =>
    match tfn model content filename with
    | .error e => .error ("Failed to transcribe audio with Whisper: " ++ e)
    | .ok raw =>
      match whisperLoop tfn model model_name rest with
      | .error e => .error e
      | .ok rs => .ok (normalizeWhisper raw model_name :: rs)

/-- `transcribe_with_whisper` (transcription.py:39-109): wrap scalar inputs in
singleton lists, fetch (possibly loading) the shared model before the loop (a
load failure propagates unwrapped), run the loop, and return a scalar result
exactly when `len(results) == 1`. -/
def transcribe_with_whisper (load : String → Except String LoadedModel)
    (tfn : LoadedModel → String → String → Except String WhisperRaw)
    (st : WhisperState) (input : PyIn) (model_name : String) :
    Except String (PyOut TranscriptionResult) × WhisperState :=
  let items := match input with
    | .single c f => [(c, f)]
    | .list l => l
  match get_whisper_model load st model_name with
  | (.error e, st') => (.error e, st')
  | (.ok model, st') =>
    match whisperLoop tfn model model_name items with
    | .error e => (.error e, st')
    | .ok [r] => (.ok (.single r), st')
    | .ok rs => (.ok (.list rs), st')

/-- `transcribe_audio` (transcription.py:112-159): post to the ElevenLabs
speech-to-text endpoint (the `post` collaborator, whose error string is the
extracted `error_detail`) and wrap failures into the 500 detail. -/
def transcribe_audio (post : String → String → String → Except String RemoteJson)
    (audio_content filename model_id : String) : Except String RemoteJson :=
  match post audio_content filename model_id with
  | .ok j => .ok j
  | .error e => .error ("Failed to transcribe audio: " ++ e)

/-- The ElevenLabs branch of the fallback loop (transcription.py:198-209): on
remote success tag the dict with `engine = "elevenlabs"` and the remote model
id; if the remote attempt also fails, raise the aggregate 500 embedding both
messages. -/
def fallbackRemote (post : String → String → String → Except String RemoteJson)
    (st : WhisperState) (content filename eleven_model whisper_error : String) :
    Except String FallbackResult × WhisperState :=
  match transcribe_audio post content filename eleven_model with
  | .ok rj => (.ok (.remote { rj with engine := "elevenlabs", model := eleven_model }), st)
  | .error ee =>
    (.error ("Transcription failed with both engines. Whisper: " ++ whisper_error ++
      ". ElevenLabs: " ++ ee), st)

/-- One iteration of the `transcribe_with_fallback` loop
(transcription.py:189-211): try Whisper on the single item (taking `result[0]`
if a list came back — a single-item call in fact always returns a scalar; an
empty list would raise IndexError inside the `try`, triggering the fallback);
on any Whisper exception fall back to ElevenLabs. -/
def fallbackItem (load : String → Except String LoadedModel)
    (tfn : LoadedModel → String → String → Except String WhisperRaw)
    (post : String → String → String → Except String RemoteJson)
    (st : WhisperState) (content filename whisper_model eleven_model : String) :
    Except String FallbackResult × WhisperState :=
  match transcribe_with_whisper load tfn st (.single content filename) whisper_model with
  | (.ok (.single r), st') => (.ok (.loc r), st')
  | (.ok (.list (r :: _)), st') => (.ok (.loc r), st')
  | (.ok (.list []), st') =>
    fallbackRemote post st' content filename eleven_model "list index out of range"
  | (.error we, st') => fallbackRemote post st' content filename eleven_model we

/-- The item loop of `transcribe_with_fallback` (transcription.py:187-211): an
uncaught exception aborts the loop, discarding every accumulated result. -/
def fallbackLoop (load : String → Except String LoadedModel)
    (tfn : LoadedModel → String → String → Except String WhisperRaw)
    (post : String → String → String → Except String RemoteJson)
    (whisper_model eleven_model : String) :
    WhisperState → List (String × String) →
    Except String (List FallbackResult) × WhisperState
  | st, [] => (.ok [], st)
  | st, (c, f) :: rest =>
    match fallbackItem load tfn post st c f whisper_model eleven_model with
    | (.error e, st') => (.error e, st')
    | (.ok r, st') =>
      match fallbackLoop load tfn post whisper_model eleven_model st' rest with
      | (.error e, st₂) => (.error e, st₂)
      | (.ok rs, st₂) => (.ok (r :: rs), st₂)

/-- `transcribe_with_fallback` (transcription.py:161-214): remember whether the
input was a scalar (`single_input`), run the loop, and return `results[0]` for
a scalar input (an IndexError on an empty result list would propagate — it is
unreachable, a scalar input yields exactly one result) and the list otherwise. -/
def transcribe_with_fallback (load : String → Except String LoadedModel)
    (tfn : LoadedModel → String → String → Except String WhisperRaw)
    (post : String → String → String → Except String RemoteJson)
    (st : WhisperState) (input : PyIn) (whisper_model eleven_model : String) :
    Except String (PyOut FallbackResult) × WhisperState :=
  let items := match input with
    | .single c f => [(c, f)]
    | .list l => l
  let single_input := match input with
    | .single _ _ => true
    | .list _ => false
  match fallbackLoop load tfn post whisper_model eleven_model st items with
  | (.error e, st') => (.error e, st')
  | (.ok rs, st') =>
    if single_input then
      match rs with
      | r :: _ => (.ok (.single r), st')
      | [] => (.error "list index out of range", st')
    else (.ok (.list rs), st')

/-! ## Voice metadata store (routes/voice_routes.py, functions/eleven_api.py)

The relational store is modelled as explicit lists of rows; UUIDs as `Nat`.
Queries `db.query(..).filter(..).first()` become `List.find?`; `db.delete`
removes the found row; committing an attribute mutation updates that row in
place (primary keys are unique, so updating every row with the matching id is
the same row).  Route errors are `(status, detail)` pairs. -/

/-- A row of the `voices` table (models/models.py:9-17). -/
structure VoiceRec where
  id : Nat
  name : String
  description : Option String
  voice_id : String
  label : Option String
  project_id : Nat
  deriving DecidableEq, Repr

/-- A row of the api-log table (`Apilog`, defined outside src/): the fields
written by `create_voice` (user_id, endpoint, result, cost). -/
structure ApilogRec where
  user_id : Nat
  endpoint : String
  result : String
  cost : Nat
  deriving DecidableEq, Repr

/-- The database state visible to the voice routes: existing project ids and
the `voices` and api-log tables. -/
structure Db where
  projects : List Nat
  voices : List VoiceRec
  apilogs : List ApilogRec
  deriving DecidableEq, Repr

/-- The `client.voices.add` response object: `voice_id` is `none` when the
attribute is absent (accessing it raises AttributeError). -/
structure AddResp where
  voice_id : Option String
  deriving DecidableEq, Repr

/-- `create_voice` (voice_routes.py:32-105): 404 if the project is absent; on a
remote `voices.add` failure or a response without `voice_id`, record an
"error" api-log row and raise 500 with no Voice row written; otherwise insert
the new Voice row together with an "ok" api-log row and return it.
`addResult` is the outcome of the remote call, `newId` the generated primary
key, `cost` the `PriceList.VOICE_CREATE.value` constant (defined outside
src/). -/
def create_voice (db : Db) (project_id : Nat) (voice_name : String)
    (description label : Option String) (addResult : Except String AddResp)
    (user_id newId cost : Nat) : Except (Nat × String) VoiceRec × Db :=
  if project_id ∈ db.projects then
    match addResult with
    | .error e =>
      (.error (500, "Error calling ElevenLabs: " ++ e),
       { db with apilogs := db.apilogs ++ [⟨user_id, "VoiceCreate", "error", cost⟩] })
    | .ok resp =>
      match resp.voice_id with
      | none =>
        (.error (500, "ElevenLabs response did not contain a voice_id"),
         { db with apilogs := db.apilogs ++ [⟨user_id, "VoiceCreate", "error", cost⟩] })
      | some vid =>
        let new_voice : VoiceRec :=
          { id := newId, name := voice_name, description := description,
            voice_id := vid, label := label, project_id := project_id }
        (.ok new_voice,
         { db with voices := db.voices ++ [new_voice],
                   apilogs := db.apilogs ++ [⟨user_id, "VoiceCreate", "ok", cost⟩] })
  else (.error (404, "Project not found"), db)

/-- `get_voices` (voice_routes.py:108-116): 404 if the project is absent, else
all Voice rows with the given project id. -/
def get_voices (db : Db) (project_id : Nat) : Except (Nat × String) (List VoiceRec) :=
  if project_id ∈ db.projects then
    .ok (db.voices.filter fun v => v.project_id == project_id)
  else .error (404, "Project not found")

/-- `rename_voice` (voice_routes.py:119-129): 404 if the Voice row is absent;
otherwise set its `name` to the requested one, commit, and return the updated
row.  No collaborator parameter: the route makes no remote call. -/
def rename_voice (db : Db) (vid : Nat) (new_name : String) :
    Except (Nat × String) VoiceRec × Db :=
  match db.voices.find? (fun v => v.id == vid) with
  | none => (.error (404, "Voice not found"), db)
  | some voice =>
    (.ok { voice with name := new_name },
     { db with voices := db.voices.map fun v =>
         if v.id == vid then { v with name := new_name } else v })

/-- `delete_voice_eleven` (eleven_api.py:128-141): issue the remote DELETE (the
`httpDelete` collaborator) and turn any transport failure into the fixed 500
detail. -/
def delete_voice_eleven (httpDelete : String → Except String RemoteJson)
    (voice_id : String) : Except String RemoteJson :=
  match httpDelete voice_id with
  | .ok j => .ok j
  | .error _ => .error "Failed to delete voice."

/-- `delete_voice` (voice_routes.py:131-139): 404 if the Voice row is absent;
otherwise delete the row and commit, then call `delete_voice_eleven` — whose
`HTTPException` propagates to the caller, after the local deletion is already
committed. -/
def delete_voice (db : Db) (vid : Nat) (httpDelete : String → Except String RemoteJson) :
    Except (Nat × String) String × Db :=
  match db.voices.find? (fun v => v.id == vid) with
  | none => (.error (404, "Voice not found"), db)
  | some voice =>
    let db' := { db with voices := db.voices.eraseP fun v => v.id == vid }
    match delete_voice_eleven httpDelete voice.voice_id with
    | .ok _ => (.ok "Voice deleted successfully", db')
    | .error e => (.error (500, e), db')

/-! ## Helper definitions and concrete demonstration collaborators -/

/-- `needle` occurs as a contiguous substring of `hay`. -/
def strContains (hay needle : String) : Prop :=
  needle.data <:+: hay.data

/-- Whether a `Union`-shaped return value is a list (a sequence of results). -/
def PyOut.isList {α : Type} : PyOut α → Bool
  | .single _ => false
  | .list _ => true

/-- A `whisper.load_model` collaborator that always succeeds. -/
def dLoad : String → Except String LoadedModel := fun n => .ok ⟨n⟩

/-- A fixed raw Whisper output with one segment. -/
def dRaw : WhisperRaw := ⟨"hello", some "en", [⟨" hello", 0, 2⟩]⟩

/-- A `model.transcribe` collaborator that always yields `dRaw`. -/
def dTfnOk : LoadedModel → String → String → Except String WhisperRaw :=
  fun _ _ _ => .ok dRaw

/-- A `model.transcribe` collaborator that always raises. -/
def dTfnFail : LoadedModel → String → String → Except String WhisperRaw :=
  fun _ _ _ => .error "local boom"

/-- A `model.transcribe` collaborator that raises exactly on content "bad". -/
def dTfnBad : LoadedModel → String → String → Except String WhisperRaw :=
  fun _ c _ => if c = "bad" then .error "local boom" else .ok dRaw

/-- A remote speech-to-text collaborator that always succeeds. -/
def dPostOk : String → String → String → Except String RemoteJson :=
  fun _ _ _ => .ok ⟨"payload", "", ""⟩

/-- A remote speech-to-text collaborator that always fails. -/
def dPostFail : String → String → String → Except String RemoteJson :=
  fun _ _ _ => .error "remote boom"

/-- A concrete database: one project (1) holding two voices (ids 10, 11). -/
def dDb : Db :=
  { projects := [1]
    voices := [⟨10, "alice", some "d", "ext-10", none, 1⟩,
               ⟨11, "bob", none, "ext-11", some "l", 1⟩]
    apilogs := [] }

/-! ## Claim theorems -/

/-- C1 counterexample: with a failing local engine and a succeeding remote
engine, `transcribe_with_fallback` tags the returned result's engine field
with the string "elevenlabs", not "remote" as the claim states. -/
theorem C1_counterexample :
    transcribe_with_fallback dLoad dTfnFail dPostOk ⟨none⟩ (.single "a" "a.wav")
        "turbo" "scribe_v1"
      = (.ok (.single (.remote ⟨"payload", "elevenlabs", "scribe_v1"⟩)), ⟨some ⟨"turbo"⟩⟩)
    ∧ FallbackResult.engine (.remote ⟨"payload", "elevenlabs", "scribe_v1"⟩) ≠ "remote" := by
  exact ⟨rfl, by decide⟩

/-- C1 (amended): when the local attempt raises and the remote attempt
succeeds with dictionary `rj`, `transcribe_with_fallback` returns the remote
result with its engine field set to "elevenlabs" and its model field set to
the remote model id; the output is exactly this value, so the local error
message is not surfaced to the caller in any form. -/
theorem C1_remote_tag (load : String → Except String LoadedModel)
    (tfn : LoadedModel → String → String → Except String WhisperRaw)
    (post : String → String → String → Except String RemoteJson)
    (st : WhisperState) (c f wm em we : String) (st' : WhisperState) (rj : RemoteJson)
    (hl : transcribe_with_whisper load tfn st (.single c f) wm = (.error we, st'))
    (hr : transcribe_audio post c f em = .ok rj) :
    transcribe_with_fallback load tfn post st (.single c f) wm em =
      (.ok (.single (.remote { payload := rj.payload, engine := "elevenlabs", model := em })), st')
    ∧ FallbackResult.engine
        (.remote { payload := rj.payload, engine := "elevenlabs", model := em })
      = "elevenlabs" := by
  constructor
  · simp [transcribe_with_fallback, fallbackLoop, fallbackItem, fallbackRemote, hl, hr]
  · rfl

/-- C1 witness: the hypotheses of `C1_remote_tag` hold at a concrete input and
the conclusion evaluates there. -/
theorem C1_witness :
    transcribe_with_whisper dLoad dTfnFail ⟨none⟩ (.single "a" "a.wav") "turbo"
      = (.error "Failed to transcribe audio with Whisper: local boom", ⟨some ⟨"turbo"⟩⟩)
    ∧ transcribe_audio dPostOk "a" "a.wav" "scribe_v1" = .ok ⟨"payload", "", ""⟩
    ∧ transcribe_with_fallback dLoad dTfnFail dPostOk ⟨none⟩ (.single "a" "a.wav")
        "turbo" "scribe_v1"
      = (.ok (.single (.remote ⟨"payload", "elevenlabs", "scribe_v1"⟩)), ⟨some ⟨"turbo"⟩⟩) := by
  refine ⟨rfl, rfl, ?_⟩
  exact (C1_remote_tag dLoad dTfnFail dPostOk ⟨none⟩ "a" "a.wav" "turbo" "scribe_v1"
    "Failed to transcribe audio with Whisper: local boom" ⟨some ⟨"turbo"⟩⟩
    ⟨"payload", "", ""⟩ rfl rfl).1

/-- C2: when both the local and the remote attempt fail (with surfaced
messages `we` and `ee`), `transcribe_with_fallback` fails with exactly one
aggregate error whose detail contains both `we` and `ee` as substrings. -/
theorem C2_aggregate (load : String → Except String LoadedModel)
    (tfn : LoadedModel → String → String → Except String WhisperRaw)
    (post : String → String → String → Except String RemoteJson)
    (st : WhisperState) (c f wm em we ee : String) (st' : WhisperState)
    (hl : transcribe_with_whisper load tfn st (.single c f) wm = (.error we, st'))
    (hr : transcribe_audio post c f em = .error ee) :
    transcribe_with_fallback load tfn post st (.single c f) wm em =
      (.error ("Transcription failed with both engines. Whisper: " ++ we ++
        ". ElevenLabs: " ++ ee), st')
    ∧ strContains ("Transcription failed with both engines. Whisper: " ++ we ++
        ". ElevenLabs: " ++ ee) we
    ∧ strContains ("Transcription failed with both engines. Whisper: " ++ we ++
        ". ElevenLabs: " ++ ee) ee := by
  refine ⟨?_, ?_, ?_⟩
  · simp [transcribe_with_fallback, fallbackLoop, fallbackItem, fallbackRemote, hl, hr]
  · exact ⟨("Transcription failed with both engines. Whisper: ").data,
      (". ElevenLabs: " ++ ee).data, by simp [String.data_append]⟩
  · exact ⟨("Transcription failed with both engines. Whisper: " ++ we ++
      ". ElevenLabs: ").data, [], by simp [String.data_append]⟩

/-- C2 witness: the hypotheses of `C2_aggregate` hold at a concrete input and
the conclusion evaluates there. -/
theorem C2_witness :
    transcribe_with_whisper dLoad dTfnFail ⟨none⟩ (.single "a" "a.wav") "turbo"
      = (.error "Failed to transcribe audio with Whisper: local boom", ⟨some ⟨"turbo"⟩⟩)
    ∧ transcribe_audio dPostFail "a" "a.wav" "scribe_v1"
      = .error "Failed to transcribe audio: remote boom"
    ∧ (transcribe_with_fallback dLoad dTfnFail dPostFail ⟨none⟩ (.single "a" "a.wav")
        "turbo" "scribe_v1" =
        (.error ("Transcription failed with both engines. Whisper: " ++
          "Failed to transcribe audio with Whisper: local boom" ++ ". ElevenLabs: " ++
          "Failed to transcribe audio: remote boom"), ⟨some ⟨"turbo"⟩⟩)
      ∧ strContains ("Transcription failed with both engines. Whisper: " ++
          "Failed to transcribe audio with Whisper: local boom" ++ ". ElevenLabs: " ++
          "Failed to transcribe audio: remote boom")
          "Failed to transcribe audio with Whisper: local boom"
      ∧ strContains ("Transcription failed with both engines. Whisper: " ++
          "Failed to transcribe audio with Whisper: local boom" ++ ". ElevenLabs: " ++
          "Failed to transcribe audio: remote boom")
          "Failed to transcribe audio: remote boom") := by
  refine ⟨rfl, rfl, ?_⟩
  exact C2_aggregate dLoad dTfnFail dPostFail ⟨none⟩ "a" "a.wav" "turbo" "scribe_v1"
    "Failed to transcribe audio with Whisper: local boom"
    "Failed to transcribe audio: remote boom" ⟨some ⟨"turbo"⟩⟩ rfl rfl

/-- C3 counterexample: on an input where the local engine succeeds, the result
of `transcribe_with_whisper` has its engine field equal to "whisper", not
"local" as the claim states. -/
theorem C3_counterexample :
    transcribe_with_whisper dLoad dTfnOk ⟨none⟩ (.single "a" "a.wav") "turbo"
      = (.ok (.single (normalizeWhisper dRaw "turbo")), ⟨some ⟨"turbo"⟩⟩)
    ∧ (normalizeWhisper dRaw "turbo").engine = "whisper"
    ∧ (normalizeWhisper dRaw "turbo").engine ≠ "local" := by
  exact ⟨rfl, rfl, by decide⟩

/-- C3 (amended): whenever the local engine succeeds on a single input, the
result returned by `transcribe_with_whisper` has engine field "whisper", and
`transcribe_with_fallback` returns that same local result. -/
theorem C3_local_tag (load : String → Except String LoadedModel)
    (tfn : LoadedModel → String → String → Except String WhisperRaw)
    (post : String → String → String → Except String RemoteJson)
    (st : WhisperState) (c f wm em : String) (r : TranscriptionResult) (st' : WhisperState)
    (h : transcribe_with_whisper load tfn st (.single c f) wm = (.ok (.single r), st')) :
    r.engine = "whisper"
    ∧ transcribe_with_fallback load tfn post st (.single c f) wm em =
        (.ok (.single (.loc r)), st') := by
  constructor
  · rcases hg : get_whisper_model load st wm with ⟨res, st₁⟩
    cases res with
    | error e => simp [transcribe_with_whisper, hg] at h
    | ok m =>
      cases ht : tfn m c f with
      | error e => simp [transcribe_with_whisper, whisperLoop, hg, ht] at h
      | ok raw =>
        simp [transcribe_with_whisper, whisperLoop, hg, ht] at h
        rw [← h.1]
        rfl
  · simp [transcribe_with_fallback, fallbackLoop, fallbackItem, h]

/-- C3 witness: the hypothesis of `C3_local_tag` holds at a concrete input and
the conclusion evaluates there. -/
theorem C3_witness :
    transcribe_with_whisper dLoad dTfnOk ⟨none⟩ (.single "a" "a.wav") "turbo"
      = (.ok (.single (normalizeWhisper dRaw "turbo")), ⟨some ⟨"turbo"⟩⟩)
    ∧ (normalizeWhisper dRaw "turbo").engine = "whisper"
    ∧ transcribe_with_fallback dLoad dTfnOk dPostOk ⟨none⟩ (.single "a" "a.wav")
        "turbo" "scribe_v1"
      = (.ok (.single (.loc (normalizeWhisper dRaw "turbo"))), ⟨some ⟨"turbo"⟩⟩) := by
  refine ⟨rfl, ?_, ?_⟩
  · exact (C3_local_tag dLoad dTfnOk dPostOk ⟨none⟩ "a" "a.wav" "turbo" "scribe_v1"
      (normalizeWhisper dRaw "turbo") ⟨some ⟨"turbo"⟩⟩ rfl).1
  · exact (C3_local_tag dLoad dTfnOk dPostOk ⟨none⟩ "a" "a.wav" "turbo" "scribe_v1"
      (normalizeWhisper dRaw "turbo") ⟨some ⟨"turbo"⟩⟩ rfl).2

/-- C4: on a single input where the local engine succeeds with raw output
`raw`, the normalized result has exactly one synthesized word per segment, in
segment order, each word copying its segment's text/start/end with type
"word" and the fixed placeholder speaker tag "0", and the confidence field is
the fixed value 1.0. -/
theorem C4_normalization (load : String → Except String LoadedModel)
    (tfn : LoadedModel → String → String → Except String WhisperRaw)
    (st : WhisperState) (c f wm : String) (m : LoadedModel) (st₁ : WhisperState)
    (raw : WhisperRaw)
    (hm : get_whisper_model load st wm = (.ok m, st₁))
    (ht : tfn m c f = .ok raw) :
    transcribe_with_whisper load tfn st (.single c f) wm
      = (.ok (.single (normalizeWhisper raw wm)), st₁)
    ∧ (normalizeWhisper raw wm).words = raw.segments.map (fun s =>
        { text := s.text, type := "word", start := s.start, «end» := s.«end»,
          speaker_id := "0" })
    ∧ (normalizeWhisper raw wm).words.length = raw.segments.length
    ∧ (∀ (i : Nat) (w : Word), (normalizeWhisper raw wm).words[i]? = some w →
        ∃ s : Segment, raw.segments[i]? = some s ∧ w.start = s.start ∧ w.«end» = s.«end»
          ∧ w.speaker_id = "0" ∧ w.type = "word" ∧ w.text = s.text)
    ∧ (normalizeWhisper raw wm).confidence = 1 := by
  refine ⟨?_, rfl, by simp [normalizeWhisper], ?_, rfl⟩
  · simp [transcribe_with_whisper, whisperLoop, hm, ht]
  · intro i w hw
    simp [normalizeWhisper, List.getElem?_map] at hw
    obtain ⟨s, hs, rfl⟩ := hw
    exact ⟨s, hs, rfl, rfl, rfl, rfl, rfl⟩

/-- C4 witness: the hypotheses of `C4_normalization` hold at a concrete input
and the conclusion evaluates there. -/
theorem C4_witness :
    get_whisper_model dLoad ⟨none⟩ "turbo" = (.ok ⟨"turbo"⟩, ⟨some ⟨"turbo"⟩⟩)
    ∧ dTfnOk ⟨"turbo"⟩ "a" "a.wav" = .ok dRaw
    ∧ (transcribe_with_whisper dLoad dTfnOk ⟨none⟩ (.single "a" "a.wav") "turbo"
        = (.ok (.single (normalizeWhisper dRaw "turbo")), ⟨some ⟨"turbo"⟩⟩)
      ∧ (normalizeWhisper dRaw "turbo").words = dRaw.segments.map (fun s =>
          { text := s.text, type := "word", start := s.start, «end» := s.«end»,
            speaker_id := "0" })
      ∧ (normalizeWhisper dRaw "turbo").words.length = dRaw.segments.length
      ∧ (∀ (i : Nat) (w : Word), (normalizeWhisper dRaw "turbo").words[i]? = some w →
          ∃ s : Segment, dRaw.segments[i]? = some s ∧ w.start = s.start ∧ w.«end» = s.«end»
            ∧ w.speaker_id = "0" ∧ w.type = "word" ∧ w.text = s.text)
      ∧ (normalizeWhisper dRaw "turbo").confidence = 1) := by
  exact ⟨rfl, rfl, C4_normalization dLoad dTfnOk ⟨none⟩ "a" "a.wav" "turbo"
    ⟨"turbo"⟩ ⟨some ⟨"turbo"⟩⟩ dRaw rfl rfl⟩

/-- If the fallback loop succeeds on a prefix `as`, running it on `as ++ bs`
continues with `bs` from the reached state, prepending the prefix results. -/
theorem fallbackLoop_append_ok (load : String → Except String LoadedModel)
    (tfn : LoadedModel → String → String → Except String WhisperRaw)
    (post : String → String → String → Except String RemoteJson)
    (wm em : String) (as bs : List (String × String)) (st : WhisperState)
    (rs : List FallbackResult) (st₁ : WhisperState)
    (h : fallbackLoop load tfn post wm em st as = (.ok rs, st₁)) :
    fallbackLoop load tfn post wm em st (as ++ bs) =
      match fallbackLoop load tfn post wm em st₁ bs with
      | (.error e, st₂) => (.error e, st₂)
      | (.ok rs₂, st₂) => (.ok (rs ++ rs₂), st₂) := by
  induction as generalizing st rs with
  | nil =>
    simp [fallbackLoop] at h
    obtain ⟨h1, h2⟩ := h
    subst h1
    subst h2
    rcases hb : fallbackLoop load tfn post wm em st bs with ⟨res, st₂⟩
    cases res <;> simp [fallbackLoop, hb]
  | cons hd tl ih =>
    obtain ⟨c, f⟩ := hd
    rcases hi : fallbackItem load tfn post st c f wm em with ⟨res, st'⟩
    cases res with
    | error e => simp [fallbackLoop, hi] at h
    | ok r =>
      rcases ht : fallbackLoop load tfn post wm em st' tl with ⟨res₂, st₂⟩
      cases res₂ with
      | error e => simp [fallbackLoop, hi, ht] at h
      | ok rs' =>
        simp [fallbackLoop, hi, ht] at h
        obtain ⟨h1, h2⟩ := h
        rw [h2] at ht
        have hih := ih st' rs' ht
        rcases hb : fallbackLoop load tfn post wm em st₁ bs with ⟨res₃, st₃⟩
        rw [hb] at hih
        cases res₃ <;> simp [fallbackLoop, hi, hih, ← h1, hb]

/-- A successful fallback loop yields exactly one result per input item. -/
theorem fallbackLoop_ok_length (load : String → Except String LoadedModel)
    (tfn : LoadedModel → String → String → Except String WhisperRaw)
    (post : String → String → String → Except String RemoteJson)
    (wm em : String) (l : List (String × String)) (st : WhisperState)
    (rs : List FallbackResult) (st' : WhisperState)
    (h : fallbackLoop load tfn post wm em st l = (.ok rs, st')) :
    rs.length = l.length := by
  induction l generalizing st rs st' with
  | nil =>
    simp [fallbackLoop] at h
    simp [← h.1]
  | cons hd tl ih =>
    obtain ⟨c, f⟩ := hd
    rcases hi : fallbackItem load tfn post st c f wm em with ⟨res, st₁⟩
    cases res with
    | error e => simp [fallbackLoop, hi] at h
    | ok r =>
      rcases ht : fallbackLoop load tfn post wm em st₁ tl with ⟨res₂, st₂⟩
      cases res₂ with
      | error e => simp [fallbackLoop, hi, ht] at h
      | ok rs' =>
        simp [fallbackLoop, hi, ht] at h
        rw [← h.1]
        simp [ih st₁ rs' st₂ ht]

/-- C5: in a batch whose prefix succeeds, if the next item fails in both
engines then the whole batch fails with that item's aggregate error; no
partial results are returned for any item — neither the succeeded prefix nor
the remaining items (the output is the same for every `rest`). -/
theorem C5_batch_abort (load : String → Except String LoadedModel)
    (tfn : LoadedModel → String → String → Except String WhisperRaw)
    (post : String → String → String → Except String RemoteJson)
    (wm em : String) (st : WhisperState) (pre rest : List (String × String))
    (c f : String) (rs : List FallbackResult) (st₁ : WhisperState)
    (we ee : String) (st₂ : WhisperState)
    (hpre : fallbackLoop load tfn post wm em st pre = (.ok rs, st₁))
    (hl : transcribe_with_whisper load tfn st₁ (.single c f) wm = (.error we, st₂))
    (hr : transcribe_audio post c f em = .error ee) :
    transcribe_with_fallback load tfn post st (.list (pre ++ (c, f) :: rest)) wm em =
      (.error ("Transcription failed with both engines. Whisper: " ++ we ++
        ". ElevenLabs: " ++ ee), st₂) := by
  have hloop : fallbackLoop load tfn post wm em st (pre ++ (c, f) :: rest) =
      (.error ("Transcription failed with both engines. Whisper: " ++ we ++
        ". ElevenLabs: " ++ ee), st₂) := by
    rw [fallbackLoop_append_ok load tfn post wm em pre ((c, f) :: rest) st rs st₁ hpre]
    simp [fallbackLoop, fallbackItem, fallbackRemote, hl, hr]
  simp [transcribe_with_fallback, hloop]

/-- C5 witness: the hypotheses of `C5_batch_abort` hold at a concrete
three-item batch whose second item fails in both engines, and the batch
aborts with the aggregate error there. -/
theorem C5_witness :
    fallbackLoop dLoad dTfnBad dPostFail "turbo" "scribe_v1" ⟨none⟩ [("a", "a.wav")]
      = (.ok [.loc (normalizeWhisper dRaw "turbo")], ⟨some ⟨"turbo"⟩⟩)
    ∧ transcribe_with_whisper dLoad dTfnBad ⟨some ⟨"turbo"⟩⟩ (.single "bad" "b.wav") "turbo"
      = (.error "Failed to transcribe audio with Whisper: local boom", ⟨some ⟨"turbo"⟩⟩)
    ∧ transcribe_audio dPostFail "bad" "b.wav" "scribe_v1"
      = .error "Failed to transcribe audio: remote boom"
    ∧ transcribe_with_fallback dLoad dTfnBad dPostFail ⟨none⟩
        (.list ([("a", "a.wav")] ++ ("bad", "b.wav") :: [("z", "z.wav")])) "turbo" "scribe_v1"
      = (.error ("Transcription failed with both engines. Whisper: " ++
          "Failed to transcribe audio with Whisper: local boom" ++ ". ElevenLabs: " ++
          "Failed to transcribe audio: remote boom"), ⟨some ⟨"turbo"⟩⟩) := by
  refine ⟨by simp [fallbackLoop, fallbackItem, transcribe_with_whisper, get_whisper_model,
    whisperLoop, dLoad, dTfnBad], by simp [transcribe_with_whisper, get_whisper_model,
    whisperLoop, dTfnBad], rfl, ?_⟩
  exact C5_batch_abort dLoad dTfnBad dPostFail "turbo" "scribe_v1" ⟨none⟩
    [("a", "a.wav")] [("z", "z.wav")] "bad" "b.wav"
    [.loc (normalizeWhisper dRaw "turbo")] ⟨some ⟨"turbo"⟩⟩
    "Failed to transcribe audio with Whisper: local boom"
    "Failed to transcribe audio: remote boom" ⟨some ⟨"turbo"⟩⟩
    (by simp [fallbackLoop, fallbackItem, transcribe_with_whisper, get_whisper_model,
      whisperLoop, dLoad, dTfnBad])
    (by simp [transcribe_with_whisper, get_whisper_model, whisperLoop, dTfnBad]) rfl

/-- A successful fallback loop is aligned with its input in order: the i-th
result is produced by running the loop over exactly the first i items and then
the per-item step on the i-th input, from the state so reached. -/
theorem fallbackLoop_ok_align (load : String → Except String LoadedModel)
    (tfn : LoadedModel → String → String → Except String WhisperRaw)
    (post : String → String → String → Except String RemoteJson)
    (wm em : String) (l : List (String × String)) (st : WhisperState)
    (rs : List FallbackResult) (st' : WhisperState)
    (h : fallbackLoop load tfn post wm em st l = (.ok rs, st')) :
    ∀ (i : Nat) (c f : String), l[i]? = some (c, f) →
      ∃ r rsPre stA stB, rs[i]? = some r
        ∧ fallbackLoop load tfn post wm em st (l.take i) = (.ok rsPre, stA)
        ∧ rsPre.length = i
        ∧ fallbackItem load tfn post stA c f wm em = (.ok r, stB) := by
  induction l generalizing st rs st' with
  | nil => intro i c f hcf; simp at hcf
  | cons hd tl ih =>
    obtain ⟨c₀, f₀⟩ := hd
    rcases hi : fallbackItem load tfn post st c₀ f₀ wm em with ⟨res, st₁⟩
    cases res with
    | error e => simp [fallbackLoop, hi] at h
    | ok r₀ =>
      rcases ht : fallbackLoop load tfn post wm em st₁ tl with ⟨res₂, st₂⟩
      cases res₂ with
      | error e => simp [fallbackLoop, hi, ht] at h
      | ok rs' =>
        simp [fallbackLoop, hi, ht] at h
        obtain ⟨h1, h2⟩ := h
        intro i c f hcf
        cases i with
        | zero =>
          simp at hcf
          obtain ⟨hc, hf⟩ := hcf
          subst hc
          subst hf
          exact ⟨r₀, [], st, st₁, by simp [← h1], by simp [fallbackLoop], rfl, hi⟩
        | succ j =>
          simp at hcf
          obtain ⟨r, rsPre, stA, stB, hr, hpre, hlen, hitem⟩ := ih st₁ rs' st₂ ht j c f hcf
          refine ⟨r, r₀ :: rsPre, stA, stB, by simp [← h1, hr], ?_, by simp [hlen], hitem⟩
          rw [List.take_succ_cons]
          simp [fallbackLoop, hi, hpre]

/-- A successful whisper loop yields exactly one result per input item. -/
theorem whisperLoop_ok_length (tfn : LoadedModel → String → String → Except String WhisperRaw)
    (model : LoadedModel) (model_name : String) (l : List (String × String))
    (rs : List TranscriptionResult)
    (h : whisperLoop tfn model model_name l = .ok rs) :
    rs.length = l.length := by
  induction l generalizing rs with
  | nil =>
    simp [whisperLoop] at h
    simp [← h]
  | cons hd tl ih =>
    obtain ⟨c, f⟩ := hd
    cases ht : tfn model c f with
    | error e => simp [whisperLoop, ht] at h
    | ok raw =>
      cases hl : whisperLoop tfn model model_name tl with
      | error e => simp [whisperLoop, ht, hl] at h
      | ok rs' =>
        simp [whisperLoop, ht, hl] at h
        rw [← h]
        simp [ih rs' hl]

/-- A successful whisper loop is aligned with its input in order: the i-th
result is the normalization of the engine's output on the i-th input. -/
theorem whisperLoop_ok_align (tfn : LoadedModel → String → String → Except String WhisperRaw)
    (model : LoadedModel) (model_name : String) (l : List (String × String))
    (rs : List TranscriptionResult)
    (h : whisperLoop tfn model model_name l = .ok rs) :
    ∀ (i : Nat) (c f : String), l[i]? = some (c, f) →
      ∃ raw, tfn model c f = .ok raw
        ∧ rs[i]? = some (normalizeWhisper raw model_name) := by
  induction l generalizing rs with
  | nil => intro i c f hcf; simp at hcf
  | cons hd tl ih =>
    obtain ⟨c₀, f₀⟩ := hd
    cases ht : tfn model c₀ f₀ with
    | error e => simp [whisperLoop, ht] at h
    | ok raw₀ =>
      cases hl : whisperLoop tfn model model_name tl with
      | error e => simp [whisperLoop, ht, hl] at h
      | ok rs' =>
        simp [whisperLoop, ht, hl] at h
        intro i c f hcf
        cases i with
        | zero =>
          simp at hcf
          obtain ⟨hc, hf⟩ := hcf
          subst hc
          subst hf
          exact ⟨raw₀, ht, by simp [← h]⟩
        | succ j =>
          simp at hcf
          obtain ⟨raw, hraw, hr⟩ := ih rs' hl j c f hcf
          exact ⟨raw, hraw, by simp [← h, hr]⟩

/-- C6 counterexample: given a list of inputs of length one,
`transcribe_with_whisper` returns a single scalar result, not a sequence with
one result per input as the claim states (the source returns a scalar whenever
`len(results) == 1`, regardless of the input's shape). -/
theorem C6_counterexample :
    transcribe_with_whisper dLoad dTfnOk ⟨none⟩ (.list [("a", "a.wav")]) "turbo"
      = (.ok (.single (normalizeWhisper dRaw "turbo")), ⟨some ⟨"turbo"⟩⟩)
    ∧ (PyOut.single (normalizeWhisper dRaw "turbo")).isList = false := by
  exact ⟨rfl, rfl⟩

/-- C6 (amended): `transcribe_with_fallback` returns a scalar for a scalar
input and, for a list input, a sequence with one result per input aligned
with input order (the i-th result arises from the i-th input, after exactly
the i results of the preceding inputs); `transcribe_with_whisper`, by
contrast, returns a scalar whenever exactly one result was produced —
including for a singleton list input — and an order-aligned sequence
otherwise. -/
theorem C6_shape (load : String → Except String LoadedModel)
    (tfn : LoadedModel → String → String → Except String WhisperRaw)
    (post : String → String → String → Except String RemoteJson)
    (st : WhisperState) (c f wm em : String) (l : List (String × String)) :
    (∀ (out : PyOut FallbackResult) (st' : WhisperState),
      transcribe_with_fallback load tfn post st (.single c f) wm em = (.ok out, st') →
        ∃ r, out = .single r)
    ∧ (∀ (out : PyOut FallbackResult) (st' : WhisperState),
      transcribe_with_fallback load tfn post st (.list l) wm em = (.ok out, st') →
        ∃ rs, out = .list rs ∧ rs.length = l.length
          ∧ ∀ (i : Nat) (c' f' : String), l[i]? = some (c', f') →
              ∃ r rsPre stA stB, rs[i]? = some r
                ∧ fallbackLoop load tfn post wm em st (l.take i) = (.ok rsPre, stA)
                ∧ rsPre.length = i
                ∧ fallbackItem load tfn post stA c' f' wm em = (.ok r, stB))
    ∧ (∀ (out : PyOut TranscriptionResult) (st' : WhisperState),
      transcribe_with_whisper load tfn st (.single c f) wm = (.ok out, st') →
        ∃ r, out = .single r)
    ∧ (∀ (out : PyOut TranscriptionResult) (st' : WhisperState),
      transcribe_with_whisper load tfn st (.list l) wm = (.ok out, st') →
        ∃ m, get_whisper_model load st wm = (.ok m, st')
          ∧ (l.length = 1 → ∃ r, out = .single r)
          ∧ (l.length ≠ 1 → ∃ rs, out = .list rs ∧ rs.length = l.length
              ∧ ∀ (i : Nat) (c' f' : String), l[i]? = some (c', f') →
                  ∃ raw, tfn m c' f' = .ok raw
                    ∧ rs[i]? = some (normalizeWhisper raw wm))) := by
  refine ⟨?_, ?_, ?_, ?_⟩
  · intro out st' h
    rcases hl : fallbackLoop load tfn post wm em st [(c, f)] with ⟨res, st₁⟩
    cases res with
    | error e => simp [transcribe_with_fallback, hl] at h
    | ok rs =>
      cases rs with
      | nil => simp [transcribe_with_fallback, hl] at h
      | cons r rest =>
        simp [transcribe_with_fallback, hl] at h
        exact ⟨r, h.1.symm⟩
  · intro out st' h
    rcases hl : fallbackLoop load tfn post wm em st l with ⟨res, st₁⟩
    cases res with
    | error e => simp [transcribe_with_fallback, hl] at h
    | ok rs =>
      simp [transcribe_with_fallback, hl] at h
      exact ⟨rs, h.1.symm, fallbackLoop_ok_length load tfn post wm em l st rs st₁ hl,
        fallbackLoop_ok_align load tfn post wm em l st rs st₁ hl⟩
  · intro out st' h
    rcases hg : get_whisper_model load st wm with ⟨res, st₁⟩
    cases res with
    | error e => simp [transcribe_with_whisper, hg] at h
    | ok m =>
      cases ht : tfn m c f with
      | error e => simp [transcribe_with_whisper, whisperLoop, hg, ht] at h
      | ok raw =>
        simp [transcribe_with_whisper, whisperLoop, hg, ht] at h
        exact ⟨normalizeWhisper raw wm, h.1.symm⟩
  · intro out st' h
    rcases hg : get_whisper_model load st wm with ⟨res, st₁⟩
    cases res with
    | error e => simp [transcribe_with_whisper, hg] at h
    | ok m =>
      cases hl : whisperLoop tfn m wm l with
      | error e => simp [transcribe_with_whisper, hg, hl] at h
      | ok rs =>
        have hlen := whisperLoop_ok_length tfn m wm l rs hl
        cases rs with
        | nil =>
          simp [transcribe_with_whisper, hg, hl] at h
          refine ⟨m, by rw [h.2], ?_, ?_⟩
          · intro h1
            rw [← hlen] at h1
            simp at h1
          · intro _
            exact ⟨[], h.1.symm, hlen, whisperLoop_ok_align tfn m wm l [] hl⟩
        | cons r tail =>
          cases tail with
          | nil =>
            simp [transcribe_with_whisper, hg, hl] at h
            exact ⟨m, by rw [h.2], fun _ => ⟨r, h.1.symm⟩,
              fun hne => absurd hlen.symm hne⟩
          | cons r₂ t₂ =>
            simp [transcribe_with_whisper, hg, hl] at h
            refine ⟨m, by rw [h.2], ?_, ?_⟩
            · intro h1
              rw [← hlen] at h1
              simp at h1
            · intro _
              exact ⟨r :: r₂ :: t₂, h.1.symm, hlen,
                whisperLoop_ok_align tfn m wm l (r :: r₂ :: t₂) hl⟩

/-- C6 witness: the hypotheses of `C6_shape` are discharged at concrete calls:
a scalar fallback call, a two-item list fallback call (with its order
alignment), a singleton-list whisper call returning a scalar, and a scalar
whisper call. -/
theorem C6_witness :
    (∃ r, (PyOut.single (FallbackResult.loc (normalizeWhisper dRaw "turbo"))) = .single r)
    ∧ (∃ rs, (PyOut.list [FallbackResult.loc (normalizeWhisper dRaw "turbo"),
          FallbackResult.loc (normalizeWhisper dRaw "turbo")]) = PyOut.list rs
        ∧ rs.length = 2
        ∧ ∀ (i : Nat) (c' f' : String),
            [("a", "a.wav"), ("b", "b.wav")][i]? = some (c', f') →
              ∃ r rsPre stA stB, rs[i]? = some r
                ∧ fallbackLoop dLoad dTfnOk dPostOk "turbo" "scribe_v1" ⟨none⟩
                    ([("a", "a.wav"), ("b", "b.wav")].take i) = (.ok rsPre, stA)
                ∧ rsPre.length = i
                ∧ fallbackItem dLoad dTfnOk dPostOk stA c' f' "turbo" "scribe_v1"
                    = (.ok r, stB))
    ∧ (∃ r, (PyOut.single (normalizeWhisper dRaw "turbo") : PyOut TranscriptionResult)
        = .single r)
    ∧ (∃ r, (PyOut.single (normalizeWhisper dRaw "base") : PyOut TranscriptionResult)
        = .single r) := by
  refine ⟨?_, ?_, ?_, ?_⟩
  · exact (C6_shape dLoad dTfnOk dPostOk ⟨none⟩ "a" "a.wav" "turbo" "scribe_v1"
      [("a", "a.wav"), ("b", "b.wav")]).1 _ ⟨some ⟨"turbo"⟩⟩ rfl
  · exact (C6_shape dLoad dTfnOk dPostOk ⟨none⟩ "a" "a.wav" "turbo" "scribe_v1"
      [("a", "a.wav"), ("b", "b.wav")]).2.1 _ ⟨some ⟨"turbo"⟩⟩ rfl
  · obtain ⟨m, hm, h1, h2⟩ := (C6_shape dLoad dTfnOk dPostOk ⟨none⟩ "a" "a.wav"
      "turbo" "scribe_v1" [("a", "a.wav")]).2.2.2 _ ⟨some ⟨"turbo"⟩⟩ rfl
    exact h1 rfl
  · exact (C6_shape dLoad dTfnOk dPostOk ⟨none⟩ "a" "a.wav" "base" "scribe_v1"
      [("a", "a.wav")]).2.2.1 _ ⟨some ⟨"base"⟩⟩ rfl

/-- C7: when the project exists but the remote "add voice" call fails, or its
response lacks the voice identifier, `create_voice` raises a 500, leaves the
Voice table unchanged, and still appends an "error" api-log row; a Voice row
differing from the old table can only arise from a successful remote call
returning a voice identifier. -/
theorem C7_create (db : Db) (pid : Nat) (nm : String) (desc lbl : Option String)
    (addR : Except String AddResp) (uid nid cost : Nat)
    (hproj : pid ∈ db.projects) :
    (∀ e, addR = .error e →
      create_voice db pid nm desc lbl addR uid nid cost =
        (.error (500, "Error calling ElevenLabs: " ++ e),
         { db with apilogs := db.apilogs ++ [⟨uid, "VoiceCreate", "error", cost⟩] }))
    ∧ (∀ resp, addR = .ok resp → resp.voice_id = none →
      create_voice db pid nm desc lbl addR uid nid cost =
        (.error (500, "ElevenLabs response did not contain a voice_id"),
         { db with apilogs := db.apilogs ++ [⟨uid, "VoiceCreate", "error", cost⟩] }))
    ∧ ((create_voice db pid nm desc lbl addR uid nid cost).2.voices ≠ db.voices →
      ∃ resp vid, addR = .ok resp ∧ resp.voice_id = some vid) := by
  refine ⟨?_, ?_, ?_⟩
  · intro e he
    subst he
    simp [create_voice, hproj]
  · intro resp he hid
    subst he
    simp [create_voice, hproj, hid]
  · intro hne
    cases addR with
    | error e => simp [create_voice, hproj] at hne
    | ok resp =>
      cases hv : resp.voice_id with
      | none => simp [create_voice, hproj, hv] at hne
      | some vid => exact ⟨resp, vid, rfl, hv⟩

/-- C7 witness: the hypotheses of `C7_create` hold at a concrete request whose
remote response lacks the voice identifier, and no Voice row is persisted
while an "error" api-log row is. -/
theorem C7_witness :
    (1 : Nat) ∈ dDb.projects
    ∧ (Except.ok (⟨none⟩ : AddResp) : Except String AddResp) = .ok ⟨none⟩
    ∧ (⟨none⟩ : AddResp).voice_id = none
    ∧ create_voice dDb 1 "v" none none (.ok ⟨none⟩) 7 99 5 =
        (.error (500, "ElevenLabs response did not contain a voice_id"),
         { dDb with apilogs := dDb.apilogs ++ [⟨7, "VoiceCreate", "error", 5⟩] }) := by
  refine ⟨by decide, rfl, rfl, ?_⟩
  exact (C7_create dDb 1 "v" none none (.ok ⟨none⟩) 7 99 5 (by decide)).2.1 ⟨none⟩ rfl rfl

/-- In a Voice table with pairwise-distinct primary keys, every row surviving
`eraseP` of the row with key `vid` has a different key. -/
theorem voices_eraseP_id_ne (l : List VoiceRec) (vid : Nat)
    (h : (l.map VoiceRec.id).Nodup) :
    ∀ v ∈ l.eraseP (fun v => v.id == vid), v.id ≠ vid := by
  induction l with
  | nil => intro v hv; simp at hv
  | cons a t ih =>
    rw [List.map_cons, List.nodup_cons] at h
    intro v hv hvid
    by_cases ha : a.id = vid
    · rw [List.eraseP_cons_of_pos (by simp [ha])] at hv
      exact h.1 (List.mem_map.mpr ⟨v, hv, by rw [hvid]; exact ha.symm⟩)
    · rw [List.eraseP_cons_of_neg (by simp [ha])] at hv
      rcases List.mem_cons.mp hv with rfl | hv'
      · exact ha hvid
      · exact ih h.2 v hv' hvid

/-- C8: deleting an existing Voice removes its row: no surviving row (and no
row listed for any project afterwards) carries the deleted id, and the
post-state is the same for every remote-deletion outcome — in particular the
local deletion is not rolled back when the best-effort remote deletion
fails. -/
theorem C8_delete (db : Db) (vid : Nat) (httpDelete : String → Except String RemoteJson)
    (huniq : (db.voices.map VoiceRec.id).Nodup)
    (hex : ∃ v ∈ db.voices, v.id = vid) :
    (∀ v ∈ (delete_voice db vid httpDelete).2.voices, v.id ≠ vid)
    ∧ (∀ pid vs, get_voices (delete_voice db vid httpDelete).2 pid = .ok vs →
        ∀ v ∈ vs, v.id ≠ vid)
    ∧ (∀ httpDelete₂ : String → Except String RemoteJson,
        (delete_voice db vid httpDelete₂).2 = (delete_voice db vid httpDelete).2)
    ∧ ((delete_voice db vid httpDelete).2.voices
        = db.voices.eraseP fun v => v.id == vid) := by
  obtain ⟨w, hw⟩ : ∃ w, db.voices.find? (fun v => v.id == vid) = some w := by
    obtain ⟨v, hv, hvid⟩ := hex
    cases hfind : db.voices.find? (fun v => v.id == vid) with
    | some w => exact ⟨w, rfl⟩
    | none =>
      rw [List.find?_eq_none] at hfind
      have hcontra := hfind v hv
      simp [hvid] at hcontra
  have hpost : ∀ hD : String → Except String RemoteJson,
      (delete_voice db vid hD).2 =
        { db with voices := db.voices.eraseP fun v => v.id == vid } := by
    intro hD
    cases hrem : delete_voice_eleven hD w.voice_id <;> simp [delete_voice, hw, hrem]
  have hmem : ∀ v ∈ (delete_voice db vid httpDelete).2.voices, v.id ≠ vid := by
    rw [hpost httpDelete]
    exact voices_eraseP_id_ne db.voices vid huniq
  refine ⟨hmem, ?_, fun hD₂ => by rw [hpost hD₂, hpost httpDelete], by rw [hpost httpDelete]⟩
  intro pid vs hvs v hv
  by_cases hp : pid ∈ (delete_voice db vid httpDelete).2.projects
  · simp [get_voices, hp] at hvs
    exact hmem v (List.mem_filter.mp (hvs ▸ hv)).1
  · simp [get_voices, hp] at hvs

/-- C8 witness: the hypotheses of `C8_delete` hold at a concrete database and
voice id, with a remote deletion that fails — the row is still gone. -/
theorem C8_witness :
    (dDb.voices.map VoiceRec.id).Nodup
    ∧ (∃ v ∈ dDb.voices, v.id = 10)
    ∧ (∀ v ∈ (delete_voice dDb 10 (fun _ => Except.error "net down")).2.voices,
        v.id ≠ 10) := by
  refine ⟨by decide, ⟨⟨10, "alice", some "d", "ext-10", none, 1⟩, by simp [dDb], rfl⟩, ?_⟩
  exact (C8_delete dDb 10 (fun _ => .error "net down") (by decide)
    ⟨⟨10, "alice", some "d", "ext-10", none, 1⟩, by simp [dDb], rfl⟩).1

/-- C9: renaming an existing Voice to `n` returns the row with name `n` and,
fetched again by id, the row has name `n` while id, description, voice_id,
label and project_id are unchanged; the projects and api-log tables and every
other Voice row are untouched (and `rename_voice` takes no remote
collaborator at all). -/
theorem C9_rename (db : Db) (vid : Nat) (n : String) (v : VoiceRec)
    (hfind : db.voices.find? (fun x => x.id == vid) = some v) :
    (rename_voice db vid n).1 = .ok { v with name := n }
    ∧ (rename_voice db vid n).2.voices.find? (fun x => x.id == vid)
        = some { v with name := n }
    ∧ ({ v with name := n }).name = n
    ∧ ({ v with name := n }).id = v.id
    ∧ ({ v with name := n }).description = v.description
    ∧ ({ v with name := n }).voice_id = v.voice_id
    ∧ ({ v with name := n }).label = v.label
    ∧ ({ v with name := n }).project_id = v.project_id
    ∧ (rename_voice db vid n).2.projects = db.projects
    ∧ (rename_voice db vid n).2.apilogs = db.apilogs
    ∧ (∀ w ∈ db.voices, w.id ≠ vid → w ∈ (rename_voice db vid n).2.voices) := by
  have hid' := List.find?_some hfind
  have hid : (v.id == vid) = true := hid'
  have hcomp : ((fun x : VoiceRec => x.id == vid) ∘
      (fun x : VoiceRec => if x.id == vid then { x with name := n } else x))
      = fun x : VoiceRec => x.id == vid := by
    funext x
    by_cases hx : x.id = vid <;> simp [hx]
  refine ⟨by simp [rename_voice, hfind], ?_, rfl, rfl, rfl, rfl, rfl, rfl,
    by simp [rename_voice, hfind], by simp [rename_voice, hfind], ?_⟩
  · simp only [rename_voice, hfind]
    rw [List.find?_map, hcomp, hfind]
    have hveq : v.id = vid := by simpa using hid
    simp [hveq]
  · intro w hw hne
    simp only [rename_voice, hfind]
    exact List.mem_map.mpr ⟨w, hw, by simp [hne]⟩

/-- C9 witness: the hypothesis of `C9_rename` holds at a concrete database and
the renamed row fetched by id has the new name and unchanged other fields. -/
theorem C9_witness :
    dDb.voices.find? (fun x => x.id == 10) = some ⟨10, "alice", some "d", "ext-10", none, 1⟩
    ∧ (rename_voice dDb 10 "X").1 = .ok ⟨10, "X", some "d", "ext-10", none, 1⟩
    ∧ (rename_voice dDb 10 "X").2.voices.find? (fun x => x.id == 10)
        = some ⟨10, "X", some "d", "ext-10", none, 1⟩ := by
  have h := C9_rename dDb 10 "X" ⟨10, "alice", some "d", "ext-10", none, 1⟩ rfl
  exact ⟨rfl, h.1, h.2.1⟩

/-- C10: once a first successful call has loaded and cached the model, every
later `get_whisper_model` call returns that same cached model regardless of
the requested name (and of the loader's behavior), a transcription requesting
a different name is served by the cached model, and its result's model field
reports the requested name. -/
theorem C10_cached_model (load : String → Except String LoadedModel)
    (n₁ : String) (m : LoadedModel)
    (h : load n₁ = .ok m) :
    get_whisper_model load ⟨none⟩ n₁ = (.ok m, ⟨some m⟩)
    ∧ (∀ (load₂ : String → Except String LoadedModel) (n₂ : String),
        get_whisper_model load₂ ⟨some m⟩ n₂ = (.ok m, ⟨some m⟩))
    ∧ (∀ (load₂ : String → Except String LoadedModel)
        (tfn : LoadedModel → String → String → Except String WhisperRaw)
        (n₂ c f : String) (raw : WhisperRaw),
        tfn m c f = .ok raw →
        transcribe_with_whisper load₂ tfn ⟨some m⟩ (.single c f) n₂ =
          (.ok (.single (normalizeWhisper raw n₂)), ⟨some m⟩))
    ∧ (∀ (raw : WhisperRaw) (n₂ : String), (normalizeWhisper raw n₂).model = n₂) := by
  refine ⟨by simp [get_whisper_model, h], fun _ _ => rfl, ?_, fun _ _ => rfl⟩
  intro load₂ tfn n₂ c f raw ht
  simp [transcribe_with_whisper, get_whisper_model, whisperLoop, ht]

/-- C10 witness: the hypothesis of `C10_cached_model` holds concretely; a call
requesting the different name "base" is served by the cached "turbo" model
while the result's model field reports "base". -/
theorem C10_witness :
    dLoad "turbo" = .ok ⟨"turbo"⟩
    ∧ get_whisper_model dLoad ⟨none⟩ "turbo" = (.ok ⟨"turbo"⟩, ⟨some ⟨"turbo"⟩⟩)
    ∧ get_whisper_model dLoad ⟨some ⟨"turbo"⟩⟩ "base" = (.ok ⟨"turbo"⟩, ⟨some ⟨"turbo"⟩⟩)
    ∧ transcribe_with_whisper dLoad dTfnOk ⟨some ⟨"turbo"⟩⟩ (.single "a" "a.wav") "base"
      = (.ok (.single (normalizeWhisper dRaw "base")), ⟨some ⟨"turbo"⟩⟩)
    ∧ (normalizeWhisper dRaw "base").model = "base" := by
  have hc := C10_cached_model dLoad "turbo" ⟨"turbo"⟩ rfl
  exact ⟨rfl, hc.1, hc.2.1 dLoad "base",
    hc.2.2.1 dLoad dTfnOk "base" "a" "a.wav" dRaw rfl, hc.2.2.2 dRaw "base"⟩

end AudioService
